import Mathlib

/-!
Verification of the PilotBA backend authentication and authorization core.

The definitions below are a shallow embedding of the Rust sources:
  - backend/src/services/permissions.rs  (RBAC permission system)
  - backend/src/middleware/auth.rs       (JWT claims, issue/validate, auth gate)
  - backend/src/routes/auth.rs           (refresh rotation, logout, revocation)
  - backend/src/errors.rs                (client-visible error responses)

Database tables are modelled as in-memory lists; SQL lookups become
List.find?; the token signing library (the external jsonwebtoken crate)
is modelled symbolically from the spec of the wire format.
-/

namespace PilotBA

/-! ## Permissions (services/permissions.rs) -/

/-- The closed set of capability tokens, one constructor per Rust
`Permission` variant. -/
inductive Permission where
  | dashboardCreate
  | dashboardRead
  | dashboardUpdate
  | dashboardDelete
  | dashboardShare
  | datasetUpload
  | datasetRead
  | datasetUpdate
  | datasetDelete
  | datasetShare
  | queryCreate
  | queryRead
  | queryExecute
  | queryDelete
  | chartCreate
  | chartRead
  | chartUpdate
  | chartDelete
  | chartExport
  | teamManageMembers
  | teamManageSettings
  | teamManageRoles
  | teamViewAuditLog
  | adminManageUsers
  | adminManageTeams
  | adminManageSystem
  | adminViewAllAuditLogs
deriving DecidableEq

/-- Embedding of `Permission::all()`. -/
def Permission.all : List Permission :=
  [ .dashboardCreate, .dashboardRead, .dashboardUpdate, .dashboardDelete, .dashboardShare,
    .datasetUpload, .datasetRead, .datasetUpdate, .datasetDelete, .datasetShare,
    .queryCreate, .queryRead, .queryExecute, .queryDelete,
    .chartCreate, .chartRead, .chartUpdate, .chartDelete, .chartExport,
    .teamManageMembers, .teamManageSettings, .teamManageRoles, .teamViewAuditLog,
    .adminManageUsers, .adminManageTeams, .adminManageSystem, .adminViewAllAuditLogs ]

/-- System roles, as in the Rust `SystemRole` enum. -/
inductive SystemRole where
  | superAdmin
  | admin
  | user
  | readOnly
deriving DecidableEq

/-- Embedding of `SystemRole::permissions`; the Rust code collects a
`Vec` into a `HashSet`, modelled here as the underlying list with
membership as set membership. -/
def SystemRole.permissions : SystemRole → List Permission
  | .superAdmin => Permission.all
  | .admin =>
      [ .dashboardCreate, .dashboardRead, .dashboardUpdate, .dashboardDelete, .dashboardShare,
        .datasetUpload, .datasetRead, .datasetUpdate, .datasetDelete, .datasetShare,
        .queryCreate, .queryRead, .queryExecute, .queryDelete,
        .chartCreate, .chartRead, .chartUpdate, .chartDelete, .chartExport,
        .teamManageMembers, .teamManageSettings,
        .adminManageUsers, .adminManageTeams ]
  | .user =>
      [ .dashboardCreate, .dashboardRead, .dashboardUpdate, .dashboardDelete, .dashboardShare,
        .datasetUpload, .datasetRead, .datasetUpdate, .datasetDelete,
        .queryCreate, .queryRead, .queryExecute, .queryDelete,
        .chartCreate, .chartRead, .chartUpdate, .chartDelete, .chartExport ]
  | .readOnly =>
      [ .dashboardRead, .datasetRead, .queryRead, .chartRead, .chartExport ]

/-- Team roles, as in the Rust `TeamRoleType` enum. -/
inductive TeamRoleType where
  | owner
  | admin
  | member
  | viewer
deriving DecidableEq

/-- Embedding of `TeamRoleType::team_permissions`. -/
def TeamRoleType.team_permissions : TeamRoleType → List Permission
  | .owner =>
      [ .dashboardCreate, .dashboardRead, .dashboardUpdate, .dashboardDelete, .dashboardShare,
        .datasetUpload, .datasetRead, .datasetUpdate, .datasetDelete, .datasetShare,
        .queryCreate, .queryRead, .queryExecute, .queryDelete,
        .chartCreate, .chartRead, .chartUpdate, .chartDelete, .chartExport,
        .teamManageMembers, .teamManageSettings, .teamManageRoles, .teamViewAuditLog ]
  | .admin =>
      [ .dashboardCreate, .dashboardRead, .dashboardUpdate, .dashboardShare,
        .datasetUpload, .datasetRead, .datasetUpdate, .datasetShare,
        .queryCreate, .queryRead, .queryExecute,
        .chartCreate, .chartRead, .chartUpdate, .chartExport,
        .teamManageMembers ]
  | .member =>
      [ .dashboardCreate, .dashboardRead, .dashboardUpdate,
        .datasetUpload, .datasetRead,
        .queryCreate, .queryRead, .queryExecute,
        .chartCreate, .chartRead, .chartUpdate, .chartExport ]
  | .viewer =>
      [ .dashboardRead, .datasetRead, .queryRead, .chartRead, .chartExport ]

/-- The role-string match inside `PermissionService::has_permission`
(and `get_user_permissions`): unrecognized strings fall back to
`SystemRole::User`. Total by construction, hence panic-free. -/
def parseSystemRole (s : String) : SystemRole :=
  if s = "admin" then .admin
  else if s = "user" then .user
  else if s = "readonly" then .readOnly
  else .user

/-- The role-string match inside `PermissionService::has_team_permission`
(and `get_team_permissions`): unrecognized strings fall back to
`TeamRoleType::Viewer`. Total by construction, hence panic-free. -/
def parseTeamRole (s : String) : TeamRoleType :=
  if s = "owner" then .owner
  else if s = "admin" then .admin
  else if s = "member" then .member
  else if s = "viewer" then .viewer
  else .viewer

/-! ## Database rows consulted by the permission service.
Uuid values are modelled as Nat. -/

structure UserRow where
  id : Nat
  role : String
deriving DecidableEq

structure TeamMemberRow where
  teamId : Nat
  userId : Nat
  role : String
deriving DecidableEq

structure ResourceRow where
  id : Nat
  userId : Nat
  teamId : Option Nat
deriving DecidableEq

/-- The slice of the database the permission service reads: the users
table (role column), team_members, and the two resource tables. -/
structure PermDB where
  users : List UserRow
  teamMembers : List TeamMemberRow
  files : List ResourceRow
  dashboards : List ResourceRow
deriving DecidableEq

/-- Embedding of `PermissionService::has_permission`: look up the
system role of the user and test membership of the permission in the
fixed set of the role; an absent user row yields false. -/
def hasPermission (db : PermDB) (userId : Nat) (p : Permission) : Bool :=
  match db.users.find? (fun u => u.id == userId) with
  | none => false
  | some u => (parseSystemRole u.role).permissions.contains p

/-- Embedding of `PermissionService::has_team_permission`: a
system-level AdminManageTeams override grants unconditionally; absent
membership denies; otherwise test the fixed set of the team role. -/
def hasTeamPermission (db : PermDB) (userId teamId : Nat) (p : Permission) : Bool :=
  if hasPermission db userId Permission.adminManageTeams then true
  else
    match db.teamMembers.find? (fun m => m.teamId == teamId && m.userId == userId) with
    | none => false
    | some m => (parseTeamRole m.role).team_permissions.contains p

/-- The direct-ownership lookup inside
`PermissionService::can_access_resource`: SELECT by id and user_id on
the table named by resource_type; unknown types own nothing. -/
def ownsResource (db : PermDB) (userId : Nat) (resourceType : String) (resourceId : Nat) : Bool :=
  if resourceType = "file" then
    (db.files.find? (fun f => f.id == resourceId && f.userId == userId)).isSome
  else if resourceType = "dashboard" then
    (db.dashboards.find? (fun d => d.id == resourceId && d.userId == userId)).isSome
  else false

/-- The team lookup inside `PermissionService::can_access_resource`:
SELECT team_id by id with team_id IS NOT NULL. -/
def resourceTeamId (db : PermDB) (resourceType : String) (resourceId : Nat) : Option Nat :=
  if resourceType = "file" then
    (db.files.find? (fun f => f.id == resourceId && f.teamId.isSome)).bind (fun f => f.teamId)
  else if resourceType = "dashboard" then
    (db.dashboards.find? (fun d => d.id == resourceId && d.teamId.isSome)).bind (fun d => d.teamId)
  else none

/-- Embedding of `PermissionService::can_access_resource`: direct
ownership grants unconditionally; otherwise defer to the team
permission check when the resource has a team, else to the
system-level check. -/
def canAccessResource (db : PermDB) (userId : Nat) (resourceType : String)
    (resourceId : Nat) (p : Permission) : Bool :=
  if ownsResource db userId resourceType resourceId then true
  else
    match resourceTeamId db resourceType resourceId with
    | some teamId => hasTeamPermission db userId teamId p
    | none => hasPermission db userId p

/-! ## Claims and tokens (middleware/auth.rs) -/

/-- Embedding of the Rust `Claims` struct: subject id, email, display
name, expiry and issued-at Unix timestamps. -/
structure Claims where
  sub : String
  email : String
  name : String
  exp : Nat
  iat : Nat
deriving DecidableEq

/-- Embedding of `Claims::new`: iat is the current time, exp is the
current time plus the requested number of hours. -/
def Claims.new (userId email name : String) (expHours now : Nat) : Claims :=
  { sub := userId, email := email, name := name,
    exp := now + expHours * 3600, iat := now }

/-- Modelled from the spec: the body of a token string as seen by the
external jsonwebtoken crate (not part of this repository). A
well-formed token determines the claims payload and the key material
it was signed with; anything else is unparseable garbage. -/
inductive TokenInput where
  | signed (claims : Claims) (key : String)
  | garbage (raw : String)
deriving DecidableEq

/-- The token-validation failure taxonomy of the spec. -/
inductive JwtError where
  | malformed
  | invalidSignature
  | expired
deriving DecidableEq

/-- Modelled from the spec: jsonwebtoken decode with HS256 validation,
as called by `validate_jwt` in middleware/auth.rs. Parsing failure is
Malformed; the signature is verified against the given key, then the
expiry is checked against the current time (fails when now is past
exp). -/
def validate_jwt (t : TokenInput) (secret : String) (now : Nat) : Except JwtError Claims :=
  match t with
  | .garbage _ => .error .malformed
  | .signed c k =>
      if k = secret then
        if c.exp < now then .error .expired else .ok c
      else .error .invalidSignature

/-- Embedding of `generate_jwt`: sign the claims with the base secret. -/
def generate_jwt (c : Claims) (secret : String) : TokenInput :=
  .signed c secret

/-- Embedding of `generate_refresh_token`: sign the claims with the
derived secret, the base secret with the suffix "-refresh". -/
def generate_refresh_token (c : Claims) (secret : String) : TokenInput :=
  .signed c (secret ++ "-refresh")

/-- Embedding of `validate_refresh_token`: validate against the
derived refresh secret. -/
def validate_refresh_token (t : TokenInput) (secret : String) (now : Nat) : Except JwtError Claims :=
  validate_jwt t (secret ++ "-refresh") now

/-- The two token purposes of the spec. -/
inductive Purpose where
  | access
  | refresh
deriving DecidableEq

/-- The issue operation of the spec, dispatching to the two Rust
generators by purpose. -/
def issue (c : Claims) (p : Purpose) (secret : String) : TokenInput :=
  match p with
  | .access => generate_jwt c secret
  | .refresh => generate_refresh_token c secret

/-- The validate operation of the spec, dispatching to the two Rust
validators by purpose. -/
def validatePurpose (t : TokenInput) (p : Purpose) (secret : String) (now : Nat) :
    Except JwtError Claims :=
  match p with
  | .access => validate_jwt t secret now
  | .refresh => validate_refresh_token t secret now

/-- Success test for a fallible computation. -/
def exceptIsOk : Except ε α → Bool
  | .ok _ => true
  | .error _ => false

/-! ## Client-visible errors (errors.rs) -/

/-- The `ApiError` variants reachable from the auth flows modelled
here. -/
inductive ApiError where
  | unauthorized (msg : String)
  | internal (msg : String)
deriving DecidableEq

/-- Embedding of `ApiError::error_code`. -/
def ApiError.error_code : ApiError → String
  | .unauthorized _ => "unauthorized"
  | .internal _ => "internal_error"

/-- The JSON body and status of `ResponseError::error_response`: the
error code, the message shown to the client, and the HTTP status. -/
structure ClientRejection where
  error : String
  message : String
  status : Nat
deriving DecidableEq

/-- Embedding of `ResponseError::error_response` for the variants
modelled: Unauthorized exposes its message with status 401; Internal
hides its message behind a generic one with status 500. -/
def ApiError.error_response : ApiError → ClientRejection
  | .unauthorized msg => { error := "unauthorized", message := msg, status := 401 }
  | .internal _ =>
      { error := "internal_error", message := "An unexpected error occurred", status := 500 }

/-! ## Request authentication gate (AuthMiddlewareService::call) -/

/-- The shape of the Authorization header of an inbound request:
absent, present without the Bearer prefix, or a Bearer token. -/
inductive AuthHeader where
  | missing
  | notBearer (raw : String)
  | bearer (t : TokenInput)
deriving DecidableEq

/-- Embedding of `AuthMiddlewareService::call` as a pure function of
the header, secret and current time: a Bearer token is validated and
its claims attached on success; every validation failure is rejected
with one fixed unauthorized message; a missing or non-Bearer header is
rejected with another. -/
def authGateCall (h : AuthHeader) (secret : String) (now : Nat) : Except ApiError Claims :=
  match h with
  | .bearer t =>
      match validate_jwt t secret now with
      | .ok claims => .ok claims
      | .error _ => .error (.unauthorized "Invalid or expired token")
  | _ => .error (.unauthorized "Missing or invalid Authorization header")

/-! ## Refresh rotation, logout and the revocation store (routes/auth.rs) -/

/-- A token as it travels on the wire: the raw string bytes the client
submits (whose length is checked and whose hash keys the revocation
store) together with what the string decodes to. In the Rust code the
decoded content is a function of the raw bytes; carrying both here
over-approximates the reachable inputs, which is sound for the
universal statements below. -/
structure WireToken where
  raw : String
  content : TokenInput
deriving DecidableEq

/-- Embedding of the `RefreshRequest` body. -/
structure RefreshRequest where
  refresh_token : WireToken
deriving DecidableEq

/-- The user columns read by the refresh flow. -/
structure UserRec where
  id : Nat
  email : String
  name : String
deriving DecidableEq

/-- A row of the revoked_tokens table: token hash, owning user,
expiry of the record. -/
structure RevokedRow where
  tokenHash : Nat
  userId : Nat
  expiresAt : Nat
deriving DecidableEq

/-- Embedding of the `sha256_hash` helper of routes/auth.rs. Despite
its name the Rust function uses std DefaultHasher and hex-formats a
64-bit digest; modelled as a 64-bit polynomial string hash (an
executable deterministic digest, hex formatting elided since it is
injective on 64-bit values). -/
def sha256_hash (input : String) : Nat :=
  input.data.foldl (fun h c => (h * 31 + c.toNat) % (2 ^ 64)) 5381

/-- Modelled from the spec: the base64url serialization of a signed
JWT, produced by the external jsonwebtoken crate. A deterministic
executable stand-in that records the claims fields and key material in
the raw string. -/
def encodeRaw (c : Claims) (key : String) : String :=
  "eyJhbGciOiJIUzI1NiJ9." ++ c.sub ++ "." ++ c.email ++ "." ++ c.name ++ "." ++
    toString c.iat ++ "." ++ toString c.exp ++ "." ++ key

/-- Modelled: Uuid strings as decimal numerals; `Uuid::parse_str`
accepts exactly the nonempty all-digit strings. Written over the
character list so it evaluates by kernel reduction. -/
def parseUuid (s : String) : Option Nat :=
  if !s.data.isEmpty && s.data.all (fun c => c.isDigit) then
    some (s.data.foldl (fun n c => n * 10 + (c.toNat - 48)) 0)
  else none

/-- The state and failure-injection environment of the auth routes:
the revoked_tokens and users tables, the JWT secret, the current time,
and one flag per fallible database call (the revocation-store SELECT,
the users SELECT, and the revocation-store INSERT). -/
structure AuthEnv where
  revoked : List RevokedRow
  users : List UserRec
  secret : String
  now : Nat
  revokedSelectFails : Bool
  userSelectFails : Bool
  revokedInsertFails : Bool
deriving DecidableEq

/-- The observable side effects of a refresh call, in order: the
revocation-store lookup, the signature validation, the users-table
lookup, and the revocation-store insert. -/
inductive Effect where
  | revokedLookup (tokenHash : Nat)
  | validateSig
  | userLookup (userId : Nat)
  | revokedInsert (tokenHash : Nat)
deriving DecidableEq

/-- Embedding of the success body of login/refresh
(`AuthResponse`). -/
structure AuthResponse where
  access_token : WireToken
  refresh_token : WireToken
  expires_in : Nat
  token_type : String
  user : UserRec
deriving DecidableEq

/-- Embedding of the `generate_tokens` helper: a 1-hour access token
signed with the base secret and a 7-day refresh token signed with the
derived refresh secret, plus expires_in in seconds. -/
def generate_tokens (user : UserRec) (secret : String) (now : Nat) :
    WireToken × WireToken × Nat :=
  let accessClaims := Claims.new (toString user.id) user.email user.name 1 now
  let refreshClaims := Claims.new (toString user.id) user.email user.name (7 * 24) now
  ( { raw := encodeRaw accessClaims secret,
      content := .signed accessClaims secret },
    { raw := encodeRaw refreshClaims (secret ++ "-refresh"),
      content := .signed refreshClaims (secret ++ "-refresh") },
    3600 )

/-- Decidable equality of fallible results, by cases on the two
constructors. -/
instance {ε α : Type} [DecidableEq ε] [DecidableEq α] : DecidableEq (Except ε α) := fun a b =>
  match a, b with
  | .ok x, .ok y =>
      if h : x = y then isTrue (congrArg Except.ok h)
      else isFalse (fun he => h (Except.ok.inj he))
  | .error x, .error y =>
      if h : x = y then isTrue (congrArg Except.error h)
      else isFalse (fun he => h (Except.error.inj he))
  | .ok _, .error _ => isFalse (fun he => Except.noConfusion he)
  | .error _, .ok _ => isFalse (fun he => Except.noConfusion he)

/-- Result, effect trace and final store state of one refresh call. -/
structure RefreshOutcome where
  result : Except ApiError AuthResponse
  effects : List Effect
  finalEnv : AuthEnv
deriving DecidableEq

/-- Embedding of the `refresh_token` endpoint handler: reject raw
strings shorter than 32 bytes before touching anything; look the hash
up in the revocation store and reject revoked tokens; validate the
refresh token; parse the subject id; fetch the user; mint the new
pair; finally insert the old hash into the revocation store with ON
CONFLICT DO NOTHING, ignoring any insert error. -/
def refresh_token (env : AuthEnv) (body : RefreshRequest) : RefreshOutcome :=
  if body.refresh_token.raw.length < 32 then
    ⟨.error (.unauthorized "Invalid refresh token"), [], env⟩
  else
    let tokenHash := sha256_hash body.refresh_token.raw
    if env.revokedSelectFails then
      ⟨.error (.internal "Database error"), [.revokedLookup tokenHash], env⟩
    else if env.revoked.any (fun r => r.tokenHash == tokenHash) then
      ⟨.error (.unauthorized "Token has been revoked"), [.revokedLookup tokenHash], env⟩
    else
      match validate_refresh_token body.refresh_token.content env.secret env.now with
      | .error _ =>
          ⟨.error (.unauthorized "Invalid or expired refresh token"),
            [.revokedLookup tokenHash, .validateSig], env⟩
      | .ok claims =>
          match parseUuid claims.sub with
          | none =>
              ⟨.error (.unauthorized "Invalid user ID in token"),
                [.revokedLookup tokenHash, .validateSig], env⟩
          | some uid =>
              if env.userSelectFails then
                ⟨.error (.internal "Database error"),
                  [.revokedLookup tokenHash, .validateSig, .userLookup uid], env⟩
              else
                match env.users.find? (fun u => u.id == uid) with
                | none =>
                    ⟨.error (.unauthorized "User not found"),
                      [.revokedLookup tokenHash, .validateSig, .userLookup uid], env⟩
                | some user =>
                    let gen := generate_tokens user env.secret env.now
                    let expiresAt := env.now + 7 * 24 * 3600
                    let env2 :=
                      if env.revokedInsertFails then env
                      else if env.revoked.any (fun r => r.tokenHash == tokenHash) then env
                      else { env with revoked :=
                        { tokenHash := tokenHash, userId := user.id,
                          expiresAt := expiresAt } :: env.revoked }
                    ⟨.ok { access_token := gen.1, refresh_token := gen.2.1,
                            expires_in := gen.2.2, token_type := "Bearer", user := user },
                      [.revokedLookup tokenHash, .validateSig, .userLookup uid,
                        .revokedInsert tokenHash], env2⟩

/-- Outcome of a logout call: the endpoint always answers success. -/
structure LogoutOutcome where
  respSuccess : Bool
  finalEnv : AuthEnv
deriving DecidableEq

/-- Embedding of the `logout` endpoint handler: when a refresh token
is presented, insert its hash into the revocation store with ON
CONFLICT (token_hash) DO NOTHING, attributing it to the authenticated
user when the subject parses (Uuid nil modelled as 0), and ignore any
insert error; the response is success in every case. -/
def logout (env : AuthEnv) (claims : Option Claims) (body : Option RefreshRequest) :
    LogoutOutcome :=
  match body with
  | none => ⟨true, env⟩
  | some rb =>
      let tokenHash := sha256_hash rb.refresh_token.raw
      let expiresAt := env.now + 7 * 24 * 3600
      let uid := (claims.bind (fun c => parseUuid c.sub)).getD 0
      let env2 :=
        if env.revokedInsertFails then env
        else if env.revoked.any (fun r => r.tokenHash == tokenHash) then env
        else { env with revoked :=
          { tokenHash := tokenHash, userId := uid, expiresAt := expiresAt } :: env.revoked }
      ⟨true, env2⟩

/-! ## Concrete inputs used by the witnesses and counterexamples -/

/-- A concrete claims payload: user 7, expiry at time 100. -/
def claimsW : Claims :=
  { sub := "7", email := "a@b.c", name := "Ann", exp := 100, iat := 0 }

/-- A well-formed refresh wire token carrying claimsW, signed with the
refresh key derived from the secret "s"; 34 raw bytes. -/
def tokenW : WireToken :=
  { raw := "AAAAAAAAAAAAAAAAAAAAAAAAAAAAAAAAAA",
    content := .signed claimsW ("s" ++ "-refresh") }

/-- A malformed wire token long enough to pass the length precheck. -/
def tokenBadW : WireToken :=
  { raw := "BBBBBBBBBBBBBBBBBBBBBBBBBBBBBBBBBB", content := .garbage "BBBB" }

/-- A wire token shorter than 32 bytes. -/
def tokenShortW : WireToken := { raw := "short", content := .garbage "short" }

/-- A clean environment: user 7 exists, empty revocation store, no
injected store failures, current time 10. -/
def envW : AuthEnv :=
  { revoked := [], users := [{ id := 7, email := "a@b.c", name := "Ann" }],
    secret := "s", now := 10,
    revokedSelectFails := false, userSelectFails := false, revokedInsertFails := false }

/-- envW with the hash of tokenW already recorded as revoked. -/
def envRevokedW : AuthEnv :=
  { envW with revoked :=
      [{ tokenHash := sha256_hash tokenW.raw, userId := 7, expiresAt := 604810 }] }

/-- envW with a failing revocation-store insert injected. -/
def envInsFailW : AuthEnv := { envW with revokedInsertFails := true }

/-- A permission database for the ownership witness: user 1 owns file
10, which belongs to team 5, but user 1 is not a member of any team
and holds only the plain user system role. -/
def dbOwnerW : PermDB :=
  { users := [{ id := 1, role := "user" }],
    teamMembers := [],
    files := [{ id := 10, userId := 1, teamId := some 5 }],
    dashboards := [] }

/-! ## Helper lemmas shared by the claim theorems -/

/-- A refresh call on a token whose hash is recorded, with the store
readable and the raw token past the length precheck, fails with the
revoked rejection. -/
theorem refresh_revoked_of_recorded (env : AuthEnv) (t : WireToken)
    (hsel : env.revokedSelectFails = false) (hlen : 32 ≤ t.raw.length)
    (hmem : (env.revoked.any fun r => r.tokenHash == sha256_hash t.raw) = true) :
    (refresh_token env { refresh_token := t }).result
      = Except.error (ApiError.unauthorized "Token has been revoked") := by
  simp [refresh_token, hsel, hmem, Nat.not_lt.mpr hlen]

/-- A successful refresh whose revocation insert did not fail leaves
the presented token past the length precheck, preserves the
select-failure flag, and records the token hash in the final store. -/
theorem refresh_ok_env (env : AuthEnv) (t : WireToken) (resp : AuthResponse)
    (hIns : env.revokedInsertFails = false)
    (hOk : (refresh_token env { refresh_token := t }).result = Except.ok resp) :
    32 ≤ t.raw.length
    ∧ (refresh_token env { refresh_token := t }).finalEnv.revokedSelectFails
        = env.revokedSelectFails
    ∧ ((refresh_token env { refresh_token := t }).finalEnv.revoked.any
        fun r => r.tokenHash == sha256_hash t.raw) = true := by
  by_cases h32 : t.raw.length < 32
  · simp [refresh_token, h32] at hOk
  · rcases hsel : env.revokedSelectFails with _ | _
    · rcases hmem : (env.revoked.any fun r => r.tokenHash == sha256_hash t.raw) with _ | _
      · rcases hv : validate_refresh_token t.content env.secret env.now with e | claims
        · simp [refresh_token, h32, hsel, hmem, hv] at hOk
        · rcases hu : parseUuid claims.sub with _ | uid
          · simp [refresh_token, h32, hsel, hmem, hv, hu] at hOk
          · rcases husel : env.userSelectFails with _ | _
            · rcases hf : env.users.find? (fun u => u.id == uid) with _ | user
              · simp [refresh_token, h32, hsel, hmem, hv, hu, husel, hf] at hOk
              · refine ⟨Nat.le_of_not_lt h32, ?_, ?_⟩ <;>
                  simp [refresh_token, h32, hsel, hmem, hv, hu, husel, hf, hIns]
            · simp [refresh_token, h32, hsel, hmem, hv, hu, husel] at hOk
      · simp [refresh_token, h32, hsel, hmem] at hOk
    · simp [refresh_token, h32, hsel] at hOk

/-- The base secret never equals its own refresh derivation, since the
appended suffix is nonempty. -/
theorem secret_ne_refresh (secret : String) : secret ≠ secret ++ "-refresh" := by
  intro h
  have hlen := congrArg String.length h
  rw [String.length_append] at hlen
  have h8 : "-refresh".length = 8 := rfl
  omega

/-! ## Claim theorems -/

/-- Claim C1: once the hash of a refresh token is recorded in the
revocation store (by logout or by a prior successful refresh whose
record write persisted), every subsequent refresh presenting that
token fails, and fails with the revoked rejection whenever the raw
token passes the 32-byte precheck; hence rotating twice with the same
token succeeds at most once; and recording is idempotent: logout
always answers success and re-recording the same token leaves the
store unchanged. -/
theorem C1_revocation_single_use :
    (∀ (env : AuthEnv) (t : WireToken),
        env.revokedSelectFails = false →
        (env.revoked.any fun r => r.tokenHash == sha256_hash t.raw) = true →
        exceptIsOk (refresh_token env { refresh_token := t }).result = false)
    ∧ (∀ (env : AuthEnv) (t : WireToken),
        env.revokedSelectFails = false → 32 ≤ t.raw.length →
        (env.revoked.any fun r => r.tokenHash == sha256_hash t.raw) = true →
        (refresh_token env { refresh_token := t }).result
          = Except.error (ApiError.unauthorized "Token has been revoked"))
    ∧ (∀ (env : AuthEnv) (t : WireToken) (resp : AuthResponse),
        env.revokedSelectFails = false → env.revokedInsertFails = false →
        (refresh_token env { refresh_token := t }).result = Except.ok resp →
        (refresh_token (refresh_token env { refresh_token := t }).finalEnv
            { refresh_token := t }).result
          = Except.error (ApiError.unauthorized "Token has been revoked"))
    ∧ (∀ (env : AuthEnv) (claims : Option Claims) (body : Option RefreshRequest),
        (logout env claims body).respSuccess = true
        ∧ (logout (logout env claims body).finalEnv claims body).finalEnv
            = (logout env claims body).finalEnv) := by
  refine ⟨?_, ?_, ?_, ?_⟩
  · intro env t hsel hmem
    by_cases h32 : t.raw.length < 32
    · simp [refresh_token, h32, exceptIsOk]
    · rw [refresh_revoked_of_recorded env t hsel (Nat.le_of_not_lt h32) hmem]
      rfl
  · exact fun env t hsel hlen hmem => refresh_revoked_of_recorded env t hsel hlen hmem
  · intro env t resp hsel hIns hOk
    obtain ⟨hlen, hselP, hmemP⟩ := refresh_ok_env env t resp hIns hOk
    exact refresh_revoked_of_recorded _ t (hselP.trans hsel) hlen hmemP
  · intro env claims body
    rcases body with _ | rb
    · exact ⟨rfl, rfl⟩
    · refine ⟨rfl, ?_⟩
      rcases hIns : env.revokedInsertFails with _ | _
      · rcases hmem : (env.revoked.any fun r => r.tokenHash == sha256_hash rb.refresh_token.raw)
          with _ | _
        · simp [logout, hIns, hmem]
        · simp [logout, hIns, hmem]
      · simp [logout, hIns]

/-- Witness for C1: in a store holding the hash of tokenW, a refresh
presenting tokenW is rejected as revoked. -/
theorem C1_revocation_single_use_witness :
    (refresh_token envRevokedW { refresh_token := tokenW }).result
      = Except.error (ApiError.unauthorized "Token has been revoked") :=
  C1_revocation_single_use.2.1 envRevokedW tokenW rfl (by decide) (by decide)

/-- Claim C2: for every claims payload, purpose and base secret,
validating the token issued from those claims with the same purpose
and secret, at any time not past the expiry, succeeds and returns the
claims unchanged field by field. -/
theorem C2_issue_validate_round_trip (c : Claims) (p : Purpose) (secret : String)
    (now : Nat) (h : now ≤ c.exp) :
    validatePurpose (issue c p secret) p secret now = Except.ok c := by
  cases p <;>
    simp [validatePurpose, issue, generate_jwt, generate_refresh_token,
      validate_jwt, validate_refresh_token, Nat.not_lt.mpr h]

/-- Witness for C2: the round trip at the concrete claimsW for the
refresh purpose. -/
theorem C2_issue_validate_round_trip_witness :
    validatePurpose (issue claimsW Purpose.refresh "s") Purpose.refresh "s" 10
      = Except.ok claimsW :=
  C2_issue_validate_round_trip claimsW Purpose.refresh "s" 10 (by decide)

/-- Claim C3: validating an access-purpose token against the refresh
purpose fails with an invalid signature, and conversely, for every
claims payload, secret and time, because the refresh key is the base
secret with the suffix "-refresh" appended and so differs from the
access key. -/
theorem C3_cross_purpose_rejection (c : Claims) (secret : String) (now : Nat) :
    validatePurpose (issue c Purpose.access secret) Purpose.refresh secret now
        = Except.error JwtError.invalidSignature
    ∧ validatePurpose (issue c Purpose.refresh secret) Purpose.access secret now
        = Except.error JwtError.invalidSignature := by
  have hne := secret_ne_refresh secret
  constructor <;>
    simp [validatePurpose, issue, generate_jwt, generate_refresh_token,
      validate_jwt, validate_refresh_token, hne, Ne.symm hne]

/-- Claim C4: direct ownership grants unconditionally, bypassing both
role hierarchies; only for a non-owner does the check defer to the
team permission when the resource has a team, and to the system-level
permission otherwise. -/
theorem C4_ownership_bypass (db : PermDB) (userId : Nat) (resourceType : String)
    (resourceId : Nat) (p : Permission) :
    (ownsResource db userId resourceType resourceId = true →
        canAccessResource db userId resourceType resourceId p = true)
    ∧ (ownsResource db userId resourceType resourceId = false →
        ∀ teamId, resourceTeamId db resourceType resourceId = some teamId →
          canAccessResource db userId resourceType resourceId p
            = hasTeamPermission db userId teamId p)
    ∧ (ownsResource db userId resourceType resourceId = false →
        resourceTeamId db resourceType resourceId = none →
          canAccessResource db userId resourceType resourceId p
            = hasPermission db userId p) :=
  ⟨fun h => by simp [canAccessResource, h],
   fun h teamId ht => by simp [canAccessResource, h, ht],
   fun h ht => by simp [canAccessResource, h, ht]⟩

/-- Witness for C4: user 1, not a member of team 5 and denied dataset
deletion by the team check, is nonetheless granted access to the
team-owned file 10 it owns directly. -/
theorem C4_ownership_bypass_witness :
    canAccessResource dbOwnerW 1 "file" 10 Permission.datasetDelete = true
    ∧ hasTeamPermission dbOwnerW 1 5 Permission.datasetDelete = false :=
  ⟨(C4_ownership_bypass dbOwnerW 1 "file" 10 Permission.datasetDelete).1 (by decide),
   by decide⟩

/-- Counterexample to claim C5: at the refresh endpoint two tokens
rejected for different causes receive different client-visible
rejections: a revoked token is answered with the message naming
revocation, a malformed one with the invalid-or-expired message, so
the rejection is not identical and the cause leaks. -/
theorem C5_counterexample :
    (refresh_token envRevokedW { refresh_token := tokenW }).result
      = Except.error (ApiError.unauthorized "Token has been revoked")
    ∧ (refresh_token envRevokedW { refresh_token := tokenBadW }).result
      = Except.error (ApiError.unauthorized "Invalid or expired refresh token")
    ∧ (ApiError.unauthorized "Token has been revoked").error_response
      ≠ (ApiError.unauthorized "Invalid or expired refresh token").error_response := by
  refine ⟨by decide, by decide, by decide⟩

/-- Amended claim C5: every token-validation failure cause surfaces
with HTTP status 401 and error code unauthorized, and at the
authentication gate the whole rejection is identical for all causes;
but at the refresh endpoint only the status and code are uniform,
while the message distinguishes a revoked token from an invalid or
expired one. -/
theorem C5_uniform_unauthorized_status :
    (∀ (t1 t2 : TokenInput) (secret : String) (now : Nat),
        exceptIsOk (validate_jwt t1 secret now) = false →
        exceptIsOk (validate_jwt t2 secret now) = false →
        authGateCall (AuthHeader.bearer t1) secret now
          = authGateCall (AuthHeader.bearer t2) secret now)
    ∧ (∀ (env : AuthEnv) (body : RefreshRequest) (e : ApiError),
        env.revokedSelectFails = false → env.userSelectFails = false →
        (refresh_token env body).result = Except.error e →
        e.error_response.status = 401 ∧ e.error_response.error = "unauthorized") := by
  constructor
  · intro t1 t2 secret now h1 h2
    rcases hv1 : validate_jwt t1 secret now with e1 | c1
    · rcases hv2 : validate_jwt t2 secret now with e2 | c2
      · simp [authGateCall, hv1, hv2]
      · simp [exceptIsOk, hv2] at h2
    · simp [exceptIsOk, hv1] at h1
  · intro env body e hsel husel hErr
    by_cases h32 : body.refresh_token.raw.length < 32
    · simp [refresh_token, h32] at hErr
      subst hErr; exact ⟨rfl, rfl⟩
    · rcases hmem : (env.revoked.any fun r => r.tokenHash == sha256_hash body.refresh_token.raw)
          with _ | _
      · rcases hv : validate_refresh_token body.refresh_token.content env.secret env.now
            with e2 | claims
        · simp [refresh_token, h32, hsel, hmem, hv] at hErr
          subst hErr; exact ⟨rfl, rfl⟩
        · rcases hu : parseUuid claims.sub with _ | uid
          · simp [refresh_token, h32, hsel, hmem, hv, hu] at hErr
            subst hErr; exact ⟨rfl, rfl⟩
          · rcases hf : env.users.find? (fun u => u.id == uid) with _ | user
            · simp [refresh_token, h32, hsel, hmem, hv, hu, husel, hf] at hErr
              subst hErr; exact ⟨rfl, rfl⟩
            · simp [refresh_token, h32, hsel, hmem, hv, hu, husel, hf] at hErr
      · simp [refresh_token, h32, hsel, hmem] at hErr
        subst hErr; exact ⟨rfl, rfl⟩

/-- Witness for the amended C5: at the gate, a malformed token and a
wrongly signed token receive the identical rejection. -/
theorem C5_uniform_unauthorized_status_witness :
    authGateCall (AuthHeader.bearer (TokenInput.garbage "BBBB")) "s" 10
      = authGateCall (AuthHeader.bearer (TokenInput.signed claimsW "wrong")) "s" 10 :=
  C5_uniform_unauthorized_status.1 (TokenInput.garbage "BBBB")
    (TokenInput.signed claimsW "wrong") "s" 10 (by decide) (by decide)

/-- Claim C6: a token whose expiry lies strictly in the past fails
validation whatever key it was signed with, and the gate rejects it
with the uniform unauthorized outcome; there is no grace window. -/
theorem C6_expired_always_fails (c : Claims) (k secret : String) (now : Nat)
    (h : c.exp < now) :
    exceptIsOk (validate_jwt (TokenInput.signed c k) secret now) = false
    ∧ authGateCall (AuthHeader.bearer (TokenInput.signed c k)) secret now
        = Except.error (ApiError.unauthorized "Invalid or expired token") := by
  by_cases hk : k = secret <;>
    simp [validate_jwt, authGateCall, exceptIsOk, hk, h]

/-- Witness for C6: at time 200 the correctly signed claimsW token,
expired at 100, is rejected. -/
theorem C6_expired_always_fails_witness :
    exceptIsOk (validate_jwt (TokenInput.signed claimsW "s") "s" 200) = false
    ∧ authGateCall (AuthHeader.bearer (TokenInput.signed claimsW "s")) "s" 200
        = Except.error (ApiError.unauthorized "Invalid or expired token") :=
  C6_expired_always_fails claimsW "s" "s" 200 (by decide)

/-- Counterexample to claim C7: the system-role parse maps an
unrecognized string to User, not to the least-privileged role
ReadOnly. -/
theorem C7_counterexample : parseSystemRole "unknown" ≠ SystemRole.readOnly := by
  decide

/-- Amended claim C7: both role parses are total and fallback-safe
(being Lean functions they cannot panic), but the system-role parse
maps every unrecognized string to User, while the team-role parse
maps every unrecognized string to the least-privileged Viewer. -/
theorem C7_fallback_parse_total (s : String) :
    (s ≠ "admin" → s ≠ "user" → s ≠ "readonly" → parseSystemRole s = SystemRole.user)
    ∧ (s ≠ "owner" → s ≠ "admin" → s ≠ "member" → s ≠ "viewer" →
        parseTeamRole s = TeamRoleType.viewer) := by
  constructor
  · intro h1 h2 h3; simp [parseSystemRole, h1, h2, h3]
  · intro h1 h2 h3 h4; simp [parseTeamRole, h1, h2, h3, h4]

/-- Witness for the amended C7 at the unrecognized string unknown. -/
theorem C7_fallback_parse_total_witness :
    parseSystemRole "unknown" = SystemRole.user
    ∧ parseTeamRole "unknown" = TeamRoleType.viewer :=
  ⟨(C7_fallback_parse_total "unknown").1 (by decide) (by decide) (by decide),
   (C7_fallback_parse_total "unknown").2 (by decide) (by decide) (by decide) (by decide)⟩

/-- Claim C8: the statically defined permission sets are monotone
along both role hierarchies: Viewer within Member within Admin within
Owner for team roles, and ReadOnly within User within Admin within
SuperAdmin for system roles. -/
theorem C8_role_monotonicity :
    (∀ p ∈ TeamRoleType.viewer.team_permissions, p ∈ TeamRoleType.member.team_permissions)
    ∧ (∀ p ∈ TeamRoleType.member.team_permissions, p ∈ TeamRoleType.admin.team_permissions)
    ∧ (∀ p ∈ TeamRoleType.admin.team_permissions, p ∈ TeamRoleType.owner.team_permissions)
    ∧ (∀ p ∈ SystemRole.readOnly.permissions, p ∈ SystemRole.user.permissions)
    ∧ (∀ p ∈ SystemRole.user.permissions, p ∈ SystemRole.admin.permissions)
    ∧ (∀ p ∈ SystemRole.admin.permissions, p ∈ SystemRole.superAdmin.permissions) := by
  refine ⟨?_, ?_, ?_, ?_, ?_, ?_⟩ <;> decide

/-- Witness for C8: dashboard reading, held by a team Viewer, is also
held by a team Member. -/
theorem C8_role_monotonicity_witness :
    Permission.dashboardRead ∈ TeamRoleType.member.team_permissions :=
  C8_role_monotonicity.1 Permission.dashboardRead (by decide)

/-- Counterexample to claim C9: with the revocation-store write
failing, a rotation of the valid tokenW still returns a new token
pair (it does not fail, and no internal error is reported) and the
store is left without the old hash. -/
theorem C9_counterexample :
    envInsFailW.revokedInsertFails = true
    ∧ exceptIsOk (refresh_token envInsFailW { refresh_token := tokenW }).result = true
    ∧ (refresh_token envInsFailW { refresh_token := tokenW }).finalEnv = envInsFailW := by
  refine ⟨rfl, by decide, by decide⟩

/-- Amended claim C9: a failing revocation-store write during rotation
is silently ignored: the response is identical to the one produced
when the write succeeds (in particular a new token pair is still
returned), and the old token hash is simply not recorded, leaving the
replay window open. -/
theorem C9_insert_failure_ignored (env : AuthEnv) (body : RefreshRequest)
    (hIns : env.revokedInsertFails = true) :
    (refresh_token env body).result
      = (refresh_token { env with revokedInsertFails := false } body).result
    ∧ (refresh_token env body).finalEnv = env := by
  by_cases h32 : body.refresh_token.raw.length < 32
  · simp [refresh_token, h32]
  · rcases hsel : env.revokedSelectFails with _ | _
    · rcases hmem : (env.revoked.any fun r => r.tokenHash == sha256_hash body.refresh_token.raw)
        with _ | _
      · rcases hv : validate_refresh_token body.refresh_token.content env.secret env.now
          with e | claims
        · simp [refresh_token, h32, hsel, hmem, hv]
        · rcases hu : parseUuid claims.sub with _ | uid
          · simp [refresh_token, h32, hsel, hmem, hv, hu]
          · rcases husel : env.userSelectFails with _ | _
            · rcases hf : env.users.find? (fun u => u.id == uid) with _ | user
              · simp [refresh_token, h32, hsel, hmem, hv, hu, husel, hf]
              · simp [refresh_token, h32, hsel, hmem, hv, hu, husel, hf, hIns]
            · simp [refresh_token, h32, hsel, hmem, hv, hu, husel]
      · simp [refresh_token, h32, hsel, hmem]
    · simp [refresh_token, h32, hsel]

/-- Witness for the amended C9 at the concrete failing environment. -/
theorem C9_insert_failure_ignored_witness :
    (refresh_token envInsFailW { refresh_token := tokenW }).result
      = (refresh_token { envInsFailW with revokedInsertFails := false }
          { refresh_token := tokenW }).result
    ∧ (refresh_token envInsFailW { refresh_token := tokenW }).finalEnv = envInsFailW :=
  C9_insert_failure_ignored envInsFailW { refresh_token := tokenW } rfl

/-- Claim C10: a refresh request whose raw token is shorter than 32
bytes is rejected as unauthorized immediately: the effect trace is
empty (no store lookup, no signature validation, no database access)
and the store state is untouched. -/
theorem C10_short_token_rejected_early (env : AuthEnv) (t : WireToken)
    (h : t.raw.length < 32) :
    (refresh_token env { refresh_token := t }).result
      = Except.error (ApiError.unauthorized "Invalid refresh token")
    ∧ (refresh_token env { refresh_token := t }).effects = []
    ∧ (refresh_token env { refresh_token := t }).finalEnv = env := by
  simp [refresh_token, h]

/-- Witness for C10 at the 5-byte token. -/
theorem C10_short_token_rejected_early_witness :
    (refresh_token envW { refresh_token := tokenShortW }).result
      = Except.error (ApiError.unauthorized "Invalid refresh token")
    ∧ (refresh_token envW { refresh_token := tokenShortW }).effects = []
    ∧ (refresh_token envW { refresh_token := tokenShortW }).finalEnv = envW :=
  C10_short_token_rejected_early envW tokenShortW (by decide)

end PilotBA
